import Mathlib

/-!
Verification of the support-agent tool layer (src/reference/solution.py).

Native tools (troubleshoot, create_ticket, report_feedback,
escalate_to_human) and the two DataMap descriptors (check_license,
check_version) are embedded from the source.  The declarative runtime the
source delegates to (template substitution, webhook dispatch, argument
validation, global-state merge) is not part of the repository sources, so
those pieces are modelled from the specification, each marked
`Modelled from the spec:` in its doc comment.
-/

namespace Support

/-- Apostrophe character, used to assemble the prose strings of the source. -/
def ap : String := String.singleton (Char.ofNat 39)

/-- Values stored in the session global state (strings and booleans occur). -/
inductive Value where
  | vStr (s : String)
  | vBool (b : Bool)
deriving DecidableEq, Repr

open Value

/-- Result of a tool invocation: text, global-data patch, post-process flag,
and an optional transfer signal (target, final message, final flag) --
the shape of `SwaigFunctionResult` as the source uses it. -/
structure ToolResult where
  text : String
  patch : List (String × Value)
  post : Bool
  transfer : Option (String × String × Bool)
deriving DecidableEq, Repr

/-- Plain `SwaigFunctionResult(text)`. -/
def SwaigResult (text : String) : ToolResult :=
  ⟨text, [], false, none⟩

/-- `SwaigFunctionResult(text, post_process=pp)`. -/
def SwaigResultPP (text : String) (pp : Bool) : ToolResult :=
  ⟨text, [], pp, none⟩

/-- Method `.update_global_data(p)` of the result builder. -/
def update_global_data (r : ToolResult) (p : List (String × Value)) : ToolResult :=
  ⟨r.text, p, r.post, r.transfer⟩

/-- Method `.swml_transfer(target, msg, final=fin)` of the result builder. -/
def swml_transfer (r : ToolResult) (target msg : String) (fin : Bool) : ToolResult :=
  ⟨r.text, r.patch, r.post, some (target, msg, fin)⟩

/-- First-match association lookup, the behaviour of a Python dict read. -/
def assoc {α : Type} : List (String × α) → String → Option α
  | [], _ => none
  | (k, v) :: rest, key => if k == key then some v else assoc rest key

/-- Call arguments: the string-valued `args` dict of a tool invocation. -/
abbrev Args := List (String × String)

/-- Python `args.get(k, dflt)`. -/
def getArg (args : Args) (k dflt : String) : String :=
  match assoc args k with
  | some v => v
  | none => dflt

/-- Whether `pre` is a leading run of `l` (character-wise equality). -/
def leadsWith : List Char → List Char → Bool
  | [], _ => true
  | _ :: _, [] => false
  | a :: as, b :: bs => a == b && leadsWith as bs

/-- Whether `needle` occurs contiguously anywhere in `hay`: the semantics of
the Python substring test `needle in hay`. -/
def containsSub (needle : List Char) : List Char → Bool
  | [] => needle.isEmpty
  | c :: rest => leadsWith needle (c :: rest) || containsSub needle rest

/-- ASCII lower-casing, the behaviour of Python `str.lower()` on the ASCII
texts this agent handles. -/
def toLowerStr (s : String) : String :=
  String.mk (s.toList.map Char.toLower)

/-- Python `word in issue_lower` for a single keyword. -/
def containsKw (issue_lower : String) (w : String) : Bool :=
  containsSub w.toList issue_lower.toList

/-- Python `any(word in issue_lower for word in ws)`. -/
def anyKw (ws : List String) (issue_lower : String) : Bool :=
  ws.any (containsKw issue_lower)

/-- Startup-rule keywords (solution.py line 131). -/
def kwStartup : List String :=
  ["start", "launch", "open", "won" ++ ap ++ "t run"]

/-- License-rule keywords (solution.py line 141). -/
def kwLicense : List String :=
  ["license", "activate", "key"]

/-- Performance-rule keywords (solution.py line 149). -/
def kwPerformance : List String :=
  ["slow", "performance", "lag"]

/-- Password-rule keywords (solution.py line 159). -/
def kwPassword : List String :=
  ["password", "login", "forgot"]

/-- Canned response of the startup rule (solution.py lines 132-139). -/
def startupResponse : String :=
  "For startup issues, try: 1) Restart your computer, 2) Run as administrator (Windows), 3) Check for conflicting software, 4) Reinstall if needed. Did any of these help?"

/-- Canned response of the license rule (solution.py lines 142-147). -/
def licenseResponse : String :=
  "For license issues: Check your license at account.example.com. Make sure it hasn" ++ ap ++ "t expired and isn" ++ ap ++ "t used on too many devices. Would you like me to check your license status?"

/-- Canned response of the performance rule (solution.py lines 150-157). -/
def performanceResponse : String :=
  "For performance issues: 1) Close other applications, 2) Verify system requirements (8GB RAM minimum), 3) Clear cache (Settings > Advanced > Clear Cache), 4) Update to latest version. Which of these would you like help with?"

/-- Canned response of the password rule (solution.py lines 160-166). -/
def passwordResponse : String :=
  "For password reset: Click " ++ ap ++ "Forgot Password" ++ ap ++ " on the login screen, enter your email, and check your inbox for a reset link. The link arrives within 5 minutes. Still having trouble?"

/-- Generic knowledge-base fallback response (solution.py lines 169-173). -/
def genericResponse : String :=
  "I" ++ ap ++ "ll search our knowledge base for that issue. If I can" ++ ap ++ "t find a solution, I can create a support ticket. Could you provide more details about what" ++ ap ++ "s happening?"

/-- The `troubleshoot` handler (solution.py lines 123-173): lower-case the
issue, test the four keyword rules in source order, fall back to the
generic knowledge-base response. -/
def troubleshoot (issue : String) : ToolResult :=
  let issue_lower := toLowerStr issue
  if anyKw kwStartup issue_lower then SwaigResult startupResponse
  else if anyKw kwLicense issue_lower then SwaigResult licenseResponse
  else if anyKw kwPerformance issue_lower then SwaigResult performanceResponse
  else if anyKw kwPassword issue_lower then SwaigResult passwordResponse
  else SwaigResult genericResponse

/-- The classifier's rule list in declared order, as the spec describes it:
an ordered sequence of (keyword-set, canned-response) pairs. -/
def rules : List (List String × String) :=
  [(kwStartup, startupResponse),
   (kwLicense, licenseResponse),
   (kwPerformance, performanceResponse),
   (kwPassword, passwordResponse)]

/-- Response of the first rule whose keyword set matches, else the generic
fallback (spec section 4.5 wording). -/
def firstMatch : List (List String × String) → String → String
  | [], _ => genericResponse
  | (kws, resp) :: rest, low => if anyKw kws low then resp else firstMatch rest low

/-- Spec-side restatement of the classifier: lower-case, then first match in
declared order wins. -/
def classifierSpec (issue : String) : ToolResult :=
  SwaigResult (firstMatch rules (toLowerStr issue))

/-- The concrete input of claim C1. -/
def loginIssue : String := "my login isn" ++ ap ++ "t working"

/-- A wall-clock instant, the data `datetime.now()` supplies to the tools. -/
structure DateTime where
  year : Nat
  month : Nat
  day : Nat
  hour : Nat
  minute : Nat
  second : Nat
deriving DecidableEq, Repr

/-- Decimal digit character for `m` below ten (caller keeps `m < 10`). -/
def digitChar (m : Nat) : Char :=
  match m with
  | 0 => '0'
  | 1 => '1'
  | 2 => '2'
  | 3 => '3'
  | 4 => '4'
  | 5 => '5'
  | 6 => '6'
  | 7 => '7'
  | 8 => '8'
  | _ => '9'

/-- Decimal digit string of a natural number, most significant first. -/
def natDigits (n : Nat) : List Char :=
  if _h : n < 10 then [digitChar n]
  else natDigits (n / 10) ++ [digitChar (n % 10)]
decreasing_by exact Nat.div_lt_self (by omega) (by omega)

/-- Zero-padded decimal rendering to width `w`, the behaviour of the
`%Y`/`%m`/... directives of `strftime` and of `isoformat`. -/
def padDigits (w n : Nat) : List Char :=
  List.replicate (w - (natDigits n).length) '0' ++ natDigits n

/-- Digit sequence produced by `strftime("%Y%m%d%H%M%S")`. -/
def strftimeDigits (t : DateTime) : List Char :=
  padDigits 4 t.year ++ padDigits 2 t.month ++ padDigits 2 t.day ++
  padDigits 2 t.hour ++ padDigits 2 t.minute ++ padDigits 2 t.second

/-- Python `datetime.strftime("%Y%m%d%H%M%S")`: compact numeric timestamp. -/
def strftimeYmdHMS (t : DateTime) : String :=
  String.mk (strftimeDigits t)

/-- Python `datetime.isoformat()` at seconds precision. -/
def isoformat (t : DateTime) : String :=
  String.mk (padDigits 4 t.year) ++ "-" ++ String.mk (padDigits 2 t.month) ++
  "-" ++ String.mk (padDigits 2 t.day) ++ "T" ++ String.mk (padDigits 2 t.hour) ++
  ":" ++ String.mk (padDigits 2 t.minute) ++ ":" ++ String.mk (padDigits 2 t.second)

/-- The `create_ticket` handler (solution.py lines 193-213): default the
priority to medium, mint `TKT-<timestamp>`, patch the four ticket keys. -/
def create_ticket (args : Args) (now : DateTime) : ToolResult :=
  let description := getArg args ("description") ("")
  let priority := getArg args ("priority") ("medium")
  let ticket_id := "TKT-" ++ strftimeYmdHMS now
  update_global_data
    (SwaigResult ("Created ticket " ++ ticket_id ++ " with " ++ priority ++
      " priority. Our team will respond within 24 hours for standard issues, or 4 hours for high priority. Is there anything else I can help with?"))
    [("ticket_id", vStr ticket_id),
     ("ticket_description", vStr description),
     ("ticket_priority", vStr priority),
     ("ticket_created", vStr (isoformat now))]

/-- The `report_feedback` handler (solution.py lines 232-249): patch the
three feedback keys. -/
def report_feedback (args : Args) (now : DateTime) : ToolResult :=
  let question := getArg args ("question") ("")
  let feedback := getArg args ("feedback") ("")
  update_global_data
    (SwaigResult ("Thank you for the feedback. I" ++ ap ++
      "ve logged this for our team to review. Your input helps us improve. Would you like me to create a ticket for further assistance?"))
    [("feedback_question", vStr question),
     ("feedback_content", vStr feedback),
     ("feedback_time", vStr (isoformat now))]

/-- Session global state: per-conversation key/value store. -/
abbrev GState := String → Option Value

/-- Python string rendering of a stored value, as an f-string would show it. -/
def Value.render : Value → String
  | vStr s => s
  | vBool b => if b then "True" else "False"

/-- Python truthiness of a stored value (empty string and False are falsy). -/
def Value.truthy : Value → Bool
  | vStr s => !s.isEmpty
  | vBool b => b

/-- The context string of `escalate_to_human` (solution.py line 258):
`"Ticket <id>"` when a truthy `ticket_id` is in the global state, else
`"New inquiry"`. -/
def escalateContext (g : GState) : String :=
  match g ("ticket_id") with
  | some v => if v.truthy then "Ticket " ++ v.render else "New inquiry"
  | none => "New inquiry"

/-- The `escalate_to_human` handler (solution.py lines 252-271): computes the
context string from the global state, patches the escalation keys, and
attaches the final transfer signal; the context is dropped. -/
def escalate_to_human (g : GState) (now : DateTime) : ToolResult :=
  let _context := escalateContext g
  swml_transfer
    (update_global_data
      (SwaigResultPP ("I" ++ ap ++
        "m connecting you with a human support agent. Please hold while I transfer your call.") true)
      [("escalated", vBool true), ("escalation_time", vStr (isoformat now))])
    ("/human-support") ("Goodbye!") true

/-- Modelled from the spec: the session-state merge of section 4.4 (the SDK
applies it outside this repository) -- key-wise overwrite, new keys
inserted, no deletion; entries of a patch are applied in order. -/
def applyPatch (s : GState) : List (String × Value) → GState
  | [] => s
  | kv :: rest => applyPatch (fun k => if kv.1 == k then some kv.2 else s k) rest

/-- Last binding of key `k` in a patch (later entries win). -/
def lastBind : List (String × Value) → String → Option Value
  | [], _ => none
  | kv :: rest, k =>
    match lastBind rest k with
    | some v => some v
    | none => if kv.1 == k then some kv.2 else none

/-- Nested string-valued scope a template is resolved against. -/
inductive Scope where
  | leaf (v : String)
  | node (fields : List (String × Scope))

/-- Modelled from the spec: path lookup of the template engine of section
4.1 (the engine lives in the SDK, outside this repository); `a.b.c`
addresses nested key `c` inside `b` inside `a`. -/
def lookupPath : Scope → List String → Option String
  | Scope.leaf v, [] => some v
  | Scope.leaf _, _ :: _ => none
  | Scope.node _, [] => none
  | Scope.node fields, k :: ks =>
    match assoc fields k with
    | some sub => lookupPath sub ks
    | none => none

/-- One piece of a template: literal text, or a placeholder with its
dot-separated path (the transcription of a source template string). -/
inductive TPart where
  | lit (s : String)
  | ph (path : List String)
deriving DecidableEq, Repr

/-- A template is the ordered sequence of its pieces. -/
abbrev Template := List TPart

/-- Modelled from the spec: template resolution of section 4.1 -- replace
each placeholder by the looked-up value, a missing path by the empty
string, never fail. -/
def resolveParts : Template → Scope → String
  | [], _ => ""
  | TPart.lit s :: rest, sc => s ++ resolveParts rest sc
  | TPart.ph path :: rest, sc => (lookupPath sc path).getD "" ++ resolveParts rest sc

/-- A declared tool parameter (name, type, required flag). -/
structure ParamSpec where
  pname : String
  ptype : String
  required : Bool
deriving DecidableEq, Repr

/-- Modelled from the spec: the required-parameter check of section 4.2
step 1 (the SDK performs it outside this repository) -- first declared
required parameter absent from the call arguments, if any. -/
def missingRequired : List ParamSpec → Args → Option String
  | [], _ => none
  | p :: rest, args =>
    if p.required && (assoc args p.pname).isNone then some p.pname
    else missingRequired rest args

/-- Modelled from the spec: the validation-error result of section 4.2
step 1, a `ToolResult` carrying a validation-error message. -/
def validationError (p : String) : ToolResult :=
  SwaigResult ("Validation error: missing required parameter " ++ p)

/-- An outbound HTTP request as the webhook layer builds it. -/
structure Request where
  method : String
  url : String
  body : Option String
deriving DecidableEq, Repr

/-- The failure modes of the external HTTP collaborator, all treated
uniformly as webhook failure (spec section 6). -/
inductive WebhookFailure where
  | network
  | badStatus (code : Nat)
  | malformed
  | timeout
deriving DecidableEq, Repr

/-- A parsed successful payload: the top-level fields of the response. -/
abbrev Payload := List (String × String)

/-- The external HTTP collaborator, supplied as a stub. -/
abbrev Transport := Request → Except WebhookFailure Payload

/-- Scope embedding of the call arguments. -/
def argsScope (args : Args) : Scope :=
  Scope.node (args.map (fun kv => (kv.1, Scope.leaf kv.2)))

/-- Scope embedding of a parsed payload. -/
def payloadScope (p : Payload) : Scope :=
  Scope.node (p.map (fun kv => (kv.1, Scope.leaf kv.2)))

/-- Scope embedding of a session-global snapshot. -/
def globalsScope (g : List (String × String)) : Scope :=
  Scope.node (g.map (fun kv => (kv.1, Scope.leaf kv.2)))

/-- A Data-Mapping Webhook Descriptor as declared in `_setup_datamaps`:
name, parameters, HTTP method, URL template, success output template,
optional fallback output template. -/
structure DataMapDescriptor where
  dname : String
  params : List ParamSpec
  method : String
  urlTemplate : Template
  outputTemplate : Template
  fallbackTemplate : Option Template

/-- The `check_license` DataMap (solution.py lines 59-73); the templates
transcribe the source strings piece by piece. -/
def checkLicenseDm : DataMapDescriptor :=
  ⟨"check_license",
   [⟨"license_key", "string", true⟩],
   "GET",
   [TPart.lit ("https://api.example.com/licenses/"), TPart.ph ["args", "license_key"]],
   [TPart.lit ("License status: "), TPart.ph ["status"],
    TPart.lit (". Expires: "), TPart.ph ["expires"], TPart.lit (".")],
   some [TPart.lit ("I couldn" ++ ap ++ "t find that license key. Please verify and try again.")]⟩

/-- The `check_version` DataMap (solution.py lines 77-91). -/
def checkVersionDm : DataMapDescriptor :=
  ⟨"check_version",
   [⟨"current_version", "string", true⟩],
   "GET",
   [TPart.lit ("https://api.example.com/versions/latest")],
   [TPart.lit ("Latest version is "), TPart.ph ["latest"],
    TPart.lit (". You have "), TPart.ph ["args", "current_version"], TPart.lit (".")],
   some [TPart.lit ("Unable to check version information.")]⟩

/-- Modelled from the spec: the scope the webhook request templates are
resolved against.  The session-global snapshot is exposed in the scope so
that independence from it is a statement about the declared templates, not
about the scope construction. -/
def requestScope (args : Args) (g : List (String × String)) : Scope :=
  Scope.node [("args", argsScope args), ("global_data", globalsScope g)]

/-- Modelled from the spec: request construction of section 4.2 step 2
(resolve the URL template; the two DataMaps declare no body template). -/
def buildRequest (d : DataMapDescriptor) (args : Args) (g : List (String × String)) : Request :=
  ⟨d.method, resolveParts d.urlTemplate (requestScope args g), none⟩

/-- Modelled from the spec: the output scope of sections 3 and 4.2 step 4,
`\x7bargs: call arguments, response: parsed payload\x7d`. -/
def outputScope (args : Args) (p : Payload) : Scope :=
  Scope.node [("args", argsScope args), ("response", payloadScope p)]

/-- Modelled from the spec: the webhook handler of section 4.2 (synthesized
by the SDK outside this repository).  Returns the result and the number of
external calls made.  Validation failures reject before any external
effect; transport failures resolve the fallback template against the
argument scope alone and are never surfaced as errors. -/
def invokeWebhook (d : DataMapDescriptor) (args : Args)
    (g : List (String × String)) (transport : Transport) : ToolResult × Nat :=
  match missingRequired d.params args with
  | some p => (validationError p, 0)
  | none =>
    match transport (buildRequest d args g) with
    | Except.ok payload =>
      (SwaigResult (resolveParts d.outputTemplate (outputScope args payload)), 1)
    | Except.error _ =>
      (SwaigResult (match d.fallbackTemplate with
        | some fb => resolveParts fb (Scope.node [("args", argsScope args)])
        | none => "Unable to retrieve information."), 1)

/-- Modelled from the spec: native-handler dispatch of section 4.4 with the
validation of section 4.2 step 1; a native handler makes no external HTTP
call. -/
def invokeNative (ps : List ParamSpec) (handler : Args → ToolResult)
    (args : Args) : ToolResult × Nat :=
  match missingRequired ps args with
  | some p => (validationError p, 0)
  | none => (handler args, 0)

/-- Declared parameters of `troubleshoot` (solution.py lines 111-120). -/
def troubleshootParams : List ParamSpec := [⟨"issue", "string", true⟩]

/-- Declared parameters of `create_ticket` (solution.py lines 177-191). -/
def createTicketParams : List ParamSpec :=
  [⟨"description", "string", true⟩, ⟨"priority", "string", false⟩]

/-- Declared parameters of `report_feedback` (solution.py lines 217-230). -/
def reportFeedbackParams : List ParamSpec :=
  [⟨"question", "string", true⟩, ⟨"feedback", "string", true⟩]

/-- Splitting on spaces: the whole words of a text, used to state that the
classifier does not do whole-word matching. -/
def wordsAux : List Char → List Char → List (List Char)
  | [], acc => [acc.reverse]
  | c :: rest, acc =>
    if c == ' ' then acc.reverse :: wordsAux rest [] else wordsAux rest (c :: acc)

/-- The space-separated words of a string. -/
def spaceWords (s : String) : List String :=
  (wordsAux s.toList []).map String.mk

/-- A stub transport whose every call fails with a network error. -/
def stubFailTransport : Transport := fun _ => Except.error WebhookFailure.network

/-- Whether every placeholder path of a template starts at the argument
scope. -/
def argsOnly (t : Template) : Bool :=
  t.all (fun p =>
    match p with
    | TPart.lit _ => true
    | TPart.ph path =>
      match path with
      | k :: _ => k == "args"
      | [] => false)

/-- A concrete session state holding a ticket id, used as a witness input. -/
def exampleState : GState :=
  fun k => if k == ("ticket_id") then some (vStr ("TKT-20250102030405")) else none

/-- A concrete initial state for the merge witness. -/
def mergeS0 : GState :=
  fun k => if k == ("untouched") then some (vStr ("keep")) else none

/-- First concrete patch of the merge witness. -/
def mergeP1 : List (String × Value) := [("a", vStr ("1")), ("x", vStr ("p1"))]

/-- Second concrete patch of the merge witness. -/
def mergeP2 : List (String × Value) := [("a", vStr ("2"))]

set_option maxRecDepth 8000

/-- C1: the input "my login isn't working" reaches the login/password rule,
not the generic knowledge-base fallback, and in general the classifier
returns the response of the first rule in declared order (startup, license,
performance, password) whose keyword set matches the lower-cased text. -/
theorem troubleshoot_first_match_wins :
    troubleshoot loginIssue = SwaigResult passwordResponse ∧
    troubleshoot loginIssue ≠ SwaigResult genericResponse ∧
    ∀ issue, troubleshoot issue = classifierSpec issue := by
  refine ⟨by decide, by decide, ?_⟩
  intro issue
  simp only [troubleshoot, classifierSpec, rules, firstMatch]
  split_ifs <;> rfl

/-- C10: keyword matching is substring containment on the lower-cased text,
not whole-word matching: "keyboard" contains the license-rule keyword "key"
only as part of a longer word (it is not one of its space-separated words),
yet the classifier returns the license/activation response rather than the
generic fallback; in general any text containing a license keyword as a
substring, with no startup keyword, gets the license response. -/
theorem troubleshoot_substring_containment :
    troubleshoot ("keyboard") = SwaigResult licenseResponse ∧
    troubleshoot ("keyboard") ≠ SwaigResult genericResponse ∧
    containsKw (toLowerStr ("keyboard")) ("key") = true ∧
    (spaceWords ("keyboard")).contains ("key") = false ∧
    ∀ issue w, w ∈ kwLicense → containsKw (toLowerStr issue) w = true →
      anyKw kwStartup (toLowerStr issue) = false →
      troubleshoot issue = SwaigResult licenseResponse := by
  refine ⟨by decide, by decide, by decide, by decide, ?_⟩
  intro issue w hw hc hs
  have hl : anyKw kwLicense (toLowerStr issue) = true :=
    List.any_eq_true.mpr ⟨w, hw, hc⟩
  simp only [troubleshoot, hs, hl]
  rfl

/-- Concrete instantiation of the universal part of the substring-matching
theorem at issue "keyboard" and keyword "key". -/
theorem troubleshoot_substring_containment_witness :
    troubleshoot ("keyboard") = SwaigResult licenseResponse :=
  troubleshoot_substring_containment.2.2.2.2 ("keyboard") ("key")
    (by decide) (by decide) (by decide)

/-- Every character emitted by `digitChar` is a decimal digit. -/
lemma digitChar_isDigit (m : Nat) : (digitChar m).isDigit = true := by
  unfold digitChar
  split <;> decide

/-- Every character of a rendered natural number is a decimal digit. -/
lemma natDigits_isDigit (n : Nat) : ∀ c ∈ natDigits n, c.isDigit = true := by
  induction n using Nat.strong_induction_on with
  | _ n ih =>
    unfold natDigits
    split
    · intro c hc
      rw [List.mem_singleton] at hc
      subst hc
      exact digitChar_isDigit n
    · intro c hc
      rcases List.mem_append.mp hc with h | h
      · exact ih (n / 10) (Nat.div_lt_self (by omega) (by omega)) c h
      · rw [List.mem_singleton] at h
        subst h
        exact digitChar_isDigit (n % 10)

/-- A number below `10 ^ k` renders to at most `k` digits. -/
lemma natDigits_length_le : ∀ k n, 0 < k → n < 10 ^ k → (natDigits n).length ≤ k := by
  intro k
  induction k with
  | zero => intro n h; omega
  | succ k ih =>
    intro n _ hn
    unfold natDigits
    split
    · simp
    · rename_i h10
      have hk : 0 < k := by
        rcases Nat.eq_zero_or_pos k with hk0 | hk0
        · subst hk0
          rw [pow_one] at hn
          omega
        · exact hk0
      have hdiv : n / 10 < 10 ^ k := by
        apply Nat.div_lt_of_lt_mul
        calc n < 10 ^ (k + 1) := hn
        _ = 10 * 10 ^ k := by ring
      have := ih (n / 10) hk hdiv
      simp only [List.length_append, List.length_singleton]
      omega

/-- Padding to width `w` yields exactly `w` characters when the bare
rendering fits. -/
lemma padDigits_length (w n : Nat) (h : (natDigits n).length ≤ w) :
    (padDigits w n).length = w := by
  simp [padDigits, List.length_append, List.length_replicate]
  omega

/-- Every character of a zero-padded rendering is a decimal digit. -/
lemma padDigits_isDigit (w n : Nat) : ∀ c ∈ padDigits w n, c.isDigit = true := by
  intro c hc
  rcases List.mem_append.mp hc with h | h
  · rw [List.eq_of_mem_replicate h]
    decide
  · exact natDigits_isDigit n c h

/-- Ten to the fourth, as a numeral. -/
lemma pow4eq : (10 : Nat) ^ 4 = 10000 := by norm_num

/-- Ten squared, as a numeral. -/
lemma pow2eq : (10 : Nat) ^ 2 = 100 := by norm_num

/-- The compact timestamp has exactly fourteen characters for any calendar
instant (four-digit year, two digits for each remaining component). -/
lemma strftimeDigits_length (t : DateTime) (hy : t.year < 10000)
    (hmo : t.month < 100) (hda : t.day < 100) (hh : t.hour < 100)
    (hmi : t.minute < 100) (hs : t.second < 100) :
    (strftimeDigits t).length = 14 := by
  have l4 : (padDigits 4 t.year).length = 4 :=
    padDigits_length 4 t.year (natDigits_length_le 4 t.year (by omega) (by rw [pow4eq]; exact hy))
  have l1 : (padDigits 2 t.month).length = 2 :=
    padDigits_length 2 t.month (natDigits_length_le 2 t.month (by omega) (by rw [pow2eq]; exact hmo))
  have l2 : (padDigits 2 t.day).length = 2 :=
    padDigits_length 2 t.day (natDigits_length_le 2 t.day (by omega) (by rw [pow2eq]; exact hda))
  have l3 : (padDigits 2 t.hour).length = 2 :=
    padDigits_length 2 t.hour (natDigits_length_le 2 t.hour (by omega) (by rw [pow2eq]; exact hh))
  have l5 : (padDigits 2 t.minute).length = 2 :=
    padDigits_length 2 t.minute (natDigits_length_le 2 t.minute (by omega) (by rw [pow2eq]; exact hmi))
  have l6 : (padDigits 2 t.second).length = 2 :=
    padDigits_length 2 t.second (natDigits_length_le 2 t.second (by omega) (by rw [pow2eq]; exact hs))
  simp [strftimeDigits, List.length_append, l4, l1, l2, l3, l5, l6]

/-- Every character of the compact timestamp is a decimal digit. -/
lemma strftimeDigits_isDigit (t : DateTime) :
    ∀ c ∈ strftimeDigits t, c.isDigit = true := by
  intro c hc
  simp only [strftimeDigits, List.append_assoc, List.mem_append] at hc
  rcases hc with h | h | h | h | h | h <;> exact padDigits_isDigit _ _ c h

/-- C2: an invocation of create_ticket with a description and no priority
patches exactly the keys ticket_id, ticket_description, ticket_priority and
ticket_created; the priority recorded is "medium"; and the ticket_id is the
literal "TKT-" followed by exactly fourteen decimal digits. -/
theorem create_ticket_patch_shape (args : Args) (now : DateTime)
    (_hdesc : (assoc args ("description")).isSome = true)
    (hp : assoc args ("priority") = none)
    (hy : now.year < 10000) (hmo : now.month < 100) (hda : now.day < 100)
    (hh : now.hour < 100) (hmi : now.minute < 100) (hs : now.second < 100) :
    (create_ticket args now).patch.map Prod.fst =
      ["ticket_id", "ticket_description", "ticket_priority", "ticket_created"] ∧
    assoc (create_ticket args now).patch ("ticket_priority") = some (vStr ("medium")) ∧
    assoc (create_ticket args now).patch ("ticket_id") =
      some (vStr ("TKT-" ++ String.mk (strftimeDigits now))) ∧
    ("TKT-" ++ String.mk (strftimeDigits now)).toList =
      ("TKT-").toList ++ strftimeDigits now ∧
    (strftimeDigits now).length = 14 ∧
    (∀ c ∈ strftimeDigits now, c.isDigit = true) := by
  refine ⟨?_, ?_, ?_, ?_, ?_, ?_⟩
  · simp [create_ticket, getArg, hp, update_global_data, SwaigResult]
  · simp [create_ticket, getArg, hp, update_global_data, SwaigResult, assoc]
  · simp [create_ticket, getArg, hp, update_global_data, SwaigResult, assoc, strftimeYmdHMS]
  · rfl
  · exact strftimeDigits_length now hy hmo hda hh hmi hs
  · exact strftimeDigits_isDigit now

/-- Concrete instantiation of the create_ticket shape theorem: description
given, priority omitted, a fixed clock instant. -/
theorem create_ticket_patch_shape_witness :
    assoc (create_ticket ([("description", "app crashes on save")])
        (⟨2025, 1, 2, 3, 4, 5⟩ : DateTime)).patch ("ticket_priority") =
      some (vStr ("medium")) ∧
    (strftimeDigits (⟨2025, 1, 2, 3, 4, 5⟩ : DateTime)).length = 14 := by
  have h := create_ticket_patch_shape ([("description", "app crashes on save")])
    (⟨2025, 1, 2, 3, 4, 5⟩ : DateTime) (by decide) (by decide)
    (by decide) (by decide) (by decide) (by decide) (by decide) (by decide)
  exact ⟨h.2.1, h.2.2.2.2.1⟩

/-- C3 counterexample: resolving check_license's success template against the
spec's output scope layout (args and response as the two top-level keys)
substitutes empty strings, not the payload's status and expires values --
the template's bare placeholders do not address fields nested under
response. -/
theorem check_license_output_scope_counterexample :
    resolveParts checkLicenseDm.outputTemplate
        (outputScope ([("license_key", "ABC-123")])
          ([("status", "active"), ("expires", "2026-01-01")])) =
      "License status: . Expires: ." ∧
    resolveParts checkLicenseDm.outputTemplate
        (outputScope ([("license_key", "ABC-123")])
          ([("status", "active"), ("expires", "2026-01-01")])) ≠
      "License status: active. Expires: 2026-01-01." := by
  constructor <;> decide

/-- C3 amended: the bare placeholders of check_license's success template
address top-level scope keys, so the payload's status and expires values
are substituted exactly when the parsed response's fields sit at the top
level of the scope alongside args. -/
theorem check_license_output_merged_scope (args : Args) (st ex : String) :
    resolveParts checkLicenseDm.outputTemplate
        (Scope.node [("args", argsScope args),
          ("status", Scope.leaf st), ("expires", Scope.leaf ex)]) =
      "License status: " ++ (st ++ (". Expires: " ++ (ex ++ "."))) := by
  simp [resolveParts, checkLicenseDm, lookupPath, assoc, String.append_empty]

/-- C4: when the external call of a webhook-backed tool fails, the result
text is the resolution of that descriptor's fallback template (the two
fallback templates are placeholder-free, so their resolution is their
literal text), the result is an ordinary non-fatal ToolResult, and exactly
the one failed external call was made. -/
theorem webhook_failure_fallback (args : Args) (g : List (String × String))
    (transport : Transport) (e : WebhookFailure)
    (hlk : (assoc args ("license_key")).isSome = true)
    (hcv : (assoc args ("current_version")).isSome = true)
    (hfail : ∀ r, transport r = Except.error e) :
    invokeWebhook checkLicenseDm args g transport =
      (SwaigResult ("I couldn" ++ ap ++ "t find that license key. Please verify and try again."), 1) ∧
    invokeWebhook checkVersionDm args g transport =
      (SwaigResult ("Unable to check version information."), 1) := by
  obtain ⟨v, hv⟩ := Option.isSome_iff_exists.mp hlk
  obtain ⟨w, hw⟩ := Option.isSome_iff_exists.mp hcv
  constructor <;>
    simp [invokeWebhook, missingRequired, checkLicenseDm, checkVersionDm,
      hv, hw, hfail, resolveParts, String.append_empty]

/-- Concrete instantiation of the fallback theorem: a failing stub
transport and arguments carrying both required keys. -/
theorem webhook_failure_fallback_witness :
    invokeWebhook checkLicenseDm ([("license_key", "KEY42"), ("current_version", "1.0")])
        ([]) stubFailTransport =
      (SwaigResult ("I couldn" ++ ap ++ "t find that license key. Please verify and try again."), 1) :=
  (webhook_failure_fallback ([("license_key", "KEY42"), ("current_version", "1.0")])
    ([]) stubFailTransport WebhookFailure.network
    (by decide) (by decide) (fun _ => rfl)).1

/-- C5: an invocation whose arguments miss a declared required parameter
(license_key, current_version, issue, description, question or feedback for
the respective tool) is rejected with a validation-error result before any
external effect: the external-call count is zero. -/
theorem required_params_rejected :
    (∀ (d : DataMapDescriptor) (args : Args) (g : List (String × String))
        (transport : Transport) (p : String),
      missingRequired d.params args = some p →
        invokeWebhook d args g transport = (validationError p, 0)) ∧
    (∀ (ps : List ParamSpec) (handler : Args → ToolResult) (args : Args) (p : String),
      missingRequired ps args = some p →
        invokeNative ps handler args = (validationError p, 0)) ∧
    (∀ args : Args, assoc args ("license_key") = none →
      missingRequired checkLicenseDm.params args = some ("license_key")) ∧
    (∀ args : Args, assoc args ("current_version") = none →
      missingRequired checkVersionDm.params args = some ("current_version")) ∧
    (∀ args : Args, assoc args ("issue") = none →
      missingRequired troubleshootParams args = some ("issue")) ∧
    (∀ args : Args, assoc args ("description") = none →
      missingRequired createTicketParams args = some ("description")) ∧
    (∀ args : Args, assoc args ("question") = none →
      missingRequired reportFeedbackParams args = some ("question")) ∧
    (∀ args : Args, assoc args ("feedback") = none →
      (missingRequired reportFeedbackParams args).isSome = true) := by
  refine ⟨?_, ?_, ?_, ?_, ?_, ?_, ?_, ?_⟩
  · intro d args g transport p h
    simp [invokeWebhook, h]
  · intro ps handler args p h
    simp [invokeNative, h]
  · intro args h
    simp [missingRequired, checkLicenseDm, h]
  · intro args h
    simp [missingRequired, checkVersionDm, h]
  · intro args h
    simp [missingRequired, troubleshootParams, h]
  · intro args h
    simp [missingRequired, createTicketParams, h]
  · intro args h
    simp [missingRequired, reportFeedbackParams, h]
  · intro args h
    cases hq : assoc args ("question") with
    | none => simp [missingRequired, reportFeedbackParams, hq]
    | some v => simp [missingRequired, reportFeedbackParams, hq, h]

/-- Concrete instantiation of the validation theorem: calling check_license
with empty arguments yields the validation error and zero external calls. -/
theorem required_params_rejected_witness :
    invokeWebhook checkLicenseDm ([]) ([]) stubFailTransport =
      (validationError ("license_key"), 0) :=
  required_params_rejected.1 checkLicenseDm ([]) ([]) stubFailTransport ("license_key")
    (required_params_rejected.2.2.1 ([]) (by decide))

/-- C6: escalate_to_human always carries the final transfer signal to
"/human-support" with farewell "Goodbye!", patches escalated to true and
records the escalation time; the context string it derives from ticket_id
("Ticket <id>" versus "New inquiry") does not influence the returned
result, which is independent of the global state. -/
theorem escalate_terminal_and_patch (g : GState) (now : DateTime) :
    (escalate_to_human g now).transfer = some ("/human-support", "Goodbye!", true) ∧
    assoc (escalate_to_human g now).patch ("escalated") = some (vBool true) ∧
    assoc (escalate_to_human g now).patch ("escalation_time") = some (vStr (isoformat now)) ∧
    (∀ g2 : GState, escalate_to_human g2 now = escalate_to_human g now) ∧
    (∀ tid : String, g ("ticket_id") = some (vStr tid) → tid ≠ "" →
      escalateContext g = "Ticket " ++ tid) ∧
    (g ("ticket_id") = none → escalateContext g = "New inquiry") := by
  refine ⟨?_, ?_, ?_, ?_, ?_, ?_⟩
  · rfl
  · rfl
  · simp [escalate_to_human, swml_transfer, update_global_data, SwaigResultPP, assoc]
  · intro g2
    rfl
  · intro tid h hne
    simp [escalateContext, h, Value.truthy, Value.render, String.isEmpty_iff, hne]
  · intro h
    simp [escalateContext, h]

/-- Concrete instantiation of the escalation theorem on a state holding a
ticket id. -/
theorem escalate_terminal_and_patch_witness :
    (escalate_to_human exampleState (⟨2025, 1, 2, 3, 4, 5⟩ : DateTime)).transfer =
      some ("/human-support", "Goodbye!", true) ∧
    escalateContext exampleState = "Ticket " ++ "TKT-20250102030405" := by
  have h := escalate_terminal_and_patch exampleState (⟨2025, 1, 2, 3, 4, 5⟩ : DateTime)
  exact ⟨h.1, h.2.2.2.2.1 ("TKT-20250102030405") (by decide) (by decide)⟩

/-- C7: report_feedback patches exactly the keys feedback_question,
feedback_content and feedback_time, carrying the given question, the given
feedback and a timestamp, and touches no ticket-related key. -/
theorem report_feedback_patch_frame (args : Args) (now : DateTime) :
    (report_feedback args now).patch.map Prod.fst =
      ["feedback_question", "feedback_content", "feedback_time"] ∧
    assoc (report_feedback args now).patch ("feedback_question") =
      some (vStr (getArg args ("question") (""))) ∧
    assoc (report_feedback args now).patch ("feedback_content") =
      some (vStr (getArg args ("feedback") (""))) ∧
    assoc (report_feedback args now).patch ("feedback_time") =
      some (vStr (isoformat now)) ∧
    assoc (report_feedback args now).patch ("ticket_id") = none ∧
    assoc (report_feedback args now).patch ("ticket_description") = none ∧
    assoc (report_feedback args now).patch ("ticket_priority") = none ∧
    assoc (report_feedback args now).patch ("ticket_created") = none := by
  refine ⟨rfl, ?_, ?_, ?_, ?_, ?_, ?_, ?_⟩ <;>
    simp [report_feedback, update_global_data, SwaigResult, assoc]

/-- A template whose placeholder paths all start at the argument scope
resolves identically under any two session-global snapshots. -/
lemma resolve_requestScope_globals_irrelevant (t : Template) (args : Args)
    (g1 g2 : List (String × String)) (h : argsOnly t = true) :
    resolveParts t (requestScope args g1) = resolveParts t (requestScope args g2) := by
  induction t with
  | nil => rfl
  | cons p rest ih =>
    simp only [argsOnly, List.all_cons, Bool.and_eq_true] at h
    obtain ⟨hp, hrest⟩ := h
    cases p with
    | lit s =>
      simp only [resolveParts]
      rw [ih hrest]
    | ph path =>
      cases path with
      | nil => simp at hp
      | cons k ks =>
        have hk : k = "args" := by simpa using hp
        subst hk
        have hlook : ∀ g : List (String × String),
            lookupPath (requestScope args g) ("args" :: ks) = lookupPath (argsScope args) ks := by
          intro g
          simp [requestScope, lookupPath, assoc]
        simp only [resolveParts, hlook]
        rw [ih hrest]

/-- Lookup in the scope embedding of the arguments mirrors lookup in the
arguments themselves. -/
lemma assoc_argsScope (args : Args) (k : String) :
    assoc (args.map (fun kv => (kv.1, Scope.leaf kv.2))) k =
      (assoc args k).map Scope.leaf := by
  induction args with
  | nil => rfl
  | cons kv rest ih =>
    simp only [List.map_cons, assoc, ih]
    split <;> rfl

/-- C8: the outbound request a webhook template resolves to is identical
under any two session-global states -- the declared URL templates draw
placeholders from the argument scope only; concretely, check_license's URL
is the literal prefix followed by the license_key argument. -/
theorem webhook_request_no_global_flow :
    (∀ (args : Args) (g1 g2 : List (String × String)),
      buildRequest checkLicenseDm args g1 = buildRequest checkLicenseDm args g2) ∧
    (∀ (args : Args) (g1 g2 : List (String × String)),
      buildRequest checkVersionDm args g1 = buildRequest checkVersionDm args g2) ∧
    (∀ (args : Args) (g : List (String × String)) (key : String),
      assoc args ("license_key") = some key →
        (buildRequest checkLicenseDm args g).url =
          "https://api.example.com/licenses/" ++ key) := by
  refine ⟨?_, ?_, ?_⟩
  · intro args g1 g2
    simp only [buildRequest, Request.mk.injEq, and_true, true_and]
    exact resolve_requestScope_globals_irrelevant _ args g1 g2 (by decide)
  · intro args g1 g2
    simp only [buildRequest, Request.mk.injEq, and_true, true_and]
    exact resolve_requestScope_globals_irrelevant _ args g1 g2 (by decide)
  · intro args g key h
    simp [buildRequest, checkLicenseDm, resolveParts, requestScope, lookupPath,
      assoc, argsScope, assoc_argsScope, h, String.append_empty]

/-- Concrete instantiation of the request-independence theorem: a secret in
the session state does not reach the check_license URL. -/
theorem webhook_request_no_global_flow_witness :
    (buildRequest checkLicenseDm ([("license_key", "KEY42")])
        ([("secret", "s3cr3t")])).url =
      "https://api.example.com/licenses/" ++ "KEY42" :=
  webhook_request_no_global_flow.2.2 ([("license_key", "KEY42")])
    ([("secret", "s3cr3t")]) ("KEY42") (by decide)

/-- Reading a merged state at a key sees the last binding of the patch when
there is one and the underlying state otherwise. -/
lemma applyPatch_lookup (p : List (String × Value)) : ∀ (s : GState) (k : String),
    applyPatch s p k =
      match lastBind p k with
      | some v => some v
      | none => s k := by
  induction p with
  | nil =>
    intro s k
    rfl
  | cons kv rest ih =>
    intro s k
    simp only [applyPatch, lastBind]
    rw [ih]
    cases h : lastBind rest k with
    | some v => simp
    | none =>
      by_cases hc : (kv.1 == k) = true <;> simp [hc]

/-- C9: sequential merging of two patches is last-write-wins per key: a key
bound by the later patch takes that value, a key bound only by the earlier
patch keeps the earlier value, an unmentioned key is unchanged, and no key
is ever deleted. -/
theorem global_merge_last_write_wins (s : GState) (p1 p2 : List (String × Value)) (k : String) :
    (∀ v, lastBind p2 k = some v → applyPatch (applyPatch s p1) p2 k = some v) ∧
    (lastBind p2 k = none → ∀ v, lastBind p1 k = some v →
      applyPatch (applyPatch s p1) p2 k = some v) ∧
    (lastBind p1 k = none → lastBind p2 k = none →
      applyPatch (applyPatch s p1) p2 k = s k) ∧
    (∀ v, s k = some v → ∃ w, applyPatch (applyPatch s p1) p2 k = some w) := by
  have h2 := applyPatch_lookup p2 (applyPatch s p1) k
  have h1 := applyPatch_lookup p1 s k
  refine ⟨?_, ?_, ?_, ?_⟩
  · intro v hv
    rw [h2, hv]
  · intro hn v hv
    rw [h2, hn]
    simp only []
    rw [h1, hv]
  · intro hn1 hn2
    rw [h2, hn2]
    simp only []
    rw [h1, hn1]
  · intro v hv
    rw [h2]
    cases hb2 : lastBind p2 k with
    | some w => exact ⟨w, rfl⟩
    | none =>
      simp only []
      rw [h1]
      cases hb1 : lastBind p1 k with
      | some w => exact ⟨w, rfl⟩
      | none => exact ⟨v, hv⟩

/-- Concrete instantiation of the merge theorem: the same key twice takes
the later value, a key only in the first patch stays, an untouched key is
unchanged. -/
theorem global_merge_last_write_wins_witness :
    applyPatch (applyPatch mergeS0 mergeP1) mergeP2 ("a") = some (vStr ("2")) ∧
    applyPatch (applyPatch mergeS0 mergeP1) mergeP2 ("x") = some (vStr ("p1")) ∧
    applyPatch (applyPatch mergeS0 mergeP1) mergeP2 ("untouched") = mergeS0 ("untouched") := by
  refine ⟨?_, ?_, ?_⟩
  · exact (global_merge_last_write_wins mergeS0 mergeP1 mergeP2 ("a")).1
      (vStr ("2")) (by decide)
  · exact (global_merge_last_write_wins mergeS0 mergeP1 mergeP2 ("x")).2.1
      (by decide) (vStr ("p1")) (by decide)
  · exact (global_merge_last_write_wins mergeS0 mergeP1 mergeP2 ("untouched")).2.2.1
      (by decide) (by decide)

end Support
